import Mathlib

/-!
Verification of the Bushnell watermark remover (src/watermark_remover.py).

The development shallowly embeds the program:

* `PatchConfig` — the six integer parameters of `patch_frame`.
* `Rect`, `PatchGeometry`, `geometryOf`, `resolveGeometry` — the geometry
  computation and defensive bounds check inlined in `patch_frame`
  (lines 93-131), factored out as the spec's Geometry Resolver.
* `Mat`, `Mat.slice`, `Mat.flip0`, `Mat.vconcat`, `Mat.setSlice` — the
  numpy/OpenCV operations used by `patch_frame`, on a functional image
  model (`pix : Int → Int → Pixel`); slicing follows numpy basic-slice
  semantics (negative indices wrap, then clamp to `[0, n]`).
* `patch_frame` — lines 89-160.  An unreadable file is `none`; the result
  pairs the returned boolean with the on-disk content after the call
  (the file is rewritten by `cv2.imwrite` only on the success path).
* `patch_frames` — lines 169-202, the batch tally.
* `get_fps` — lines 28-39, the frame-rate string resolution.

Machine integers are modelled as `Int` (Python integers are unbounded);
pixel values are opaque channel triples, since `patch_frame` only copies
pixels and never computes with channel values.
-/

/-- The six geometry parameters of `patch_frame` (Python `int`s, hence `Int`). -/
structure PatchConfig where
  patch_width : Int
  patch_height : Int
  patch_x : Int
  patch_y : Int
  mirror_height : Int
  mirror_offset : Int
deriving DecidableEq

/-- An axis-aligned pixel rectangle, top-left origin, rows increasing downward. -/
structure Rect where
  top : Int
  bottom : Int
  left : Int
  right : Int
deriving DecidableEq

/-- The three rectangles the Geometry Resolver produces. -/
structure PatchGeometry where
  target : Rect
  mirrorSource : Rect
  adjacentSource : Rect
deriving DecidableEq

/-- The raw rectangle formulas of `patch_frame` lines 97-122 (before the
defensive bounds check): watermark/target area, mirror source, adjacent
source. -/
def geometryOf (cfg : PatchConfig) (height _width : Int) : PatchGeometry :=
  { target :=
      { top := height - (cfg.patch_y + cfg.patch_height)
        bottom := height - cfg.patch_y
        left := cfg.patch_x
        right := cfg.patch_x + cfg.patch_width }
    mirrorSource :=
      { top := height - (cfg.patch_y + cfg.patch_height) - cfg.mirror_offset
        bottom := height - (cfg.patch_y + cfg.patch_height) - cfg.mirror_offset + cfg.mirror_height
        left := cfg.patch_x
        right := cfg.patch_x + cfg.patch_width }
    adjacentSource :=
      { top := height - cfg.patch_y - (cfg.patch_height - cfg.mirror_height)
        bottom := height - cfg.patch_y
        left := cfg.patch_x + cfg.patch_width
        right := cfg.patch_x + 2 * cfg.patch_width } }

/-- One conjunct chain of the defensive check on line 125-130:
`0 <= start < end <= bound` for both axes of a rectangle. -/
abbrev Rect.chainOK (r : Rect) (h w : Int) : Prop :=
  0 ≤ r.top ∧ r.top < r.bottom ∧ r.bottom ≤ h ∧
  0 ≤ r.left ∧ r.left < r.right ∧ r.right ≤ w

/-- The full defensive check of lines 125-130 (mirror source, adjacent
source, watermark/target, in source order). -/
abbrev geometryOK (g : PatchGeometry) (h w : Int) : Prop :=
  g.mirrorSource.chainOK h w ∧ g.adjacentSource.chainOK h w ∧ g.target.chainOK h w

/-- The Geometry Resolver: frame-size precheck (line 94) followed by the
rectangle formulas and the defensive bounds check (lines 97-131).
Returns `none` for Rejected. -/
def resolveGeometry (cfg : PatchConfig) (height width : Int) : Option PatchGeometry :=
  if height < cfg.patch_height ∨ width < cfg.patch_width + cfg.patch_x then none
  else if geometryOK (geometryOf cfg height width) height width then
    some (geometryOf cfg height width)
  else none

/-- The documented Bushnell defaults of the CLI (lines 225-230). -/
def bushnellConfig : PatchConfig :=
  { patch_width := 110, patch_height := 110, patch_x := 0, patch_y := 0
    mirror_height := 54, mirror_offset := 56 }

/-- A rectangle coordinate lies outside `[0, frameHeight] × [0, frameWidth]`. -/
abbrev Rect.outOfBounds (r : Rect) (h w : Int) : Prop :=
  r.top < 0 ∨ h < r.top ∨ r.bottom < 0 ∨ h < r.bottom ∨
  r.left < 0 ∨ w < r.left ∨ r.right < 0 ∨ w < r.right

/-- A degenerate rectangle: empty or inverted on either axis. -/
abbrev Rect.degenerate (r : Rect) : Prop :=
  r.bottom ≤ r.top ∨ r.right ≤ r.left

/-- Elimination form of `resolveGeometry`: an accepted geometry is exactly
`geometryOf`, its bounds check holds, and the size precheck passed. -/
lemma resolveGeometry_elim {cfg : PatchConfig} {h w : Int} {g : PatchGeometry}
    (hg : resolveGeometry cfg h w = some g) :
    g = geometryOf cfg h w ∧ geometryOK g h w ∧
      ¬(h < cfg.patch_height ∨ w < cfg.patch_width + cfg.patch_x) := by
  unfold resolveGeometry at hg
  split_ifs at hg with h1 h2
  have hg2 : g = geometryOf cfg h w := (Option.some_inj.mp hg).symm
  exact ⟨hg2, hg2 ▸ h2, h1⟩

/-- The geometry accepted by the resolver, for the Bushnell defaults on a
720 × 1280 frame. -/
def wGeom : PatchGeometry :=
  { target := { top := 610, bottom := 720, left := 0, right := 110 }
    mirrorSource := { top := 554, bottom := 608, left := 0, right := 110 }
    adjacentSource := { top := 664, bottom := 720, left := 110, right := 220 } }

/-- Failing the per-rectangle chain check of lines 125-130 is the same as
having a coordinate out of frame bounds or being degenerate. -/
lemma chainOK_not_iff (r : Rect) (h w : Int) :
    ¬r.chainOK h w ↔ r.outOfBounds h w ∨ r.degenerate := by
  simp only [Rect.chainOK, Rect.outOfBounds, Rect.degenerate]
  omega

/-- Failing the full defensive check is the same as one of the three
rectangles being out of bounds or degenerate. -/
lemma geometryOK_not_iff (g : PatchGeometry) (h w : Int) :
    ¬geometryOK g h w ↔
      g.target.outOfBounds h w ∨ g.target.degenerate ∨
      g.mirrorSource.outOfBounds h w ∨ g.mirrorSource.degenerate ∨
      g.adjacentSource.outOfBounds h w ∨ g.adjacentSource.degenerate := by
  simp only [geometryOK, Rect.chainOK, Rect.outOfBounds, Rect.degenerate]
  omega

/-- Claim C3: the Geometry Resolver returns Rejected (modelled as `none`;
the resolver is a total function, so no exception can be raised) if and
only if the frame is smaller than the size precheck demands, or one of the
three rectangles has a coordinate outside the frame bounds, or one of them
is degenerate. -/
theorem resolver_rejects_iff (cfg : PatchConfig) (height width : Int) :
    resolveGeometry cfg height width = none ↔
      height < cfg.patch_height ∨ width < cfg.patch_width + cfg.patch_x ∨
      (geometryOf cfg height width).target.outOfBounds height width ∨
      (geometryOf cfg height width).target.degenerate ∨
      (geometryOf cfg height width).mirrorSource.outOfBounds height width ∨
      (geometryOf cfg height width).mirrorSource.degenerate ∨
      (geometryOf cfg height width).adjacentSource.outOfBounds height width ∨
      (geometryOf cfg height width).adjacentSource.degenerate := by
  have hmain : resolveGeometry cfg height width = none ↔
      (height < cfg.patch_height ∨ width < cfg.patch_width + cfg.patch_x) ∨
      ¬geometryOK (geometryOf cfg height width) height width := by
    unfold resolveGeometry
    split_ifs with h1 h2
    · exact iff_of_true rfl (Or.inl h1)
    · exact iff_of_false (by simp) (by tauto)
    · exact iff_of_true rfl (Or.inr h2)
  rw [hmain, geometryOK_not_iff, or_assoc]

/-- Claim C4 (counterexample): with the documented Bushnell defaults, a
110 × 220 frame satisfies both `frameHeight ≥ patchHeight` and
`frameWidth ≥ patchWidth + patchX`, yet the Geometry Resolver rejects it
(the mirror-source rectangle would start 56 rows above the frame). -/
theorem resolver_accepts_cex :
    bushnellConfig.patch_height ≤ (110 : Int) ∧
    bushnellConfig.patch_width + bushnellConfig.patch_x ≤ (220 : Int) ∧
    resolveGeometry bushnellConfig 110 220 = none := by decide

/-- Claim C4 (amended): whenever the Geometry Resolver accepts — the two
size conditions are necessary but not sufficient for acceptance — the
three returned rectangles satisfy
`mirrorSource.height + adjacentSource.height = target.height = patchHeight`
and all three have width `patchWidth`. -/
theorem resolver_heights_widths (cfg : PatchConfig) (height width : Int)
    (g : PatchGeometry) (hg : resolveGeometry cfg height width = some g) :
    (g.mirrorSource.bottom - g.mirrorSource.top) +
        (g.adjacentSource.bottom - g.adjacentSource.top) =
      g.target.bottom - g.target.top ∧
    g.target.bottom - g.target.top = cfg.patch_height ∧
    g.target.right - g.target.left = cfg.patch_width ∧
    g.mirrorSource.right - g.mirrorSource.left = cfg.patch_width ∧
    g.adjacentSource.right - g.adjacentSource.left = cfg.patch_width := by
  obtain ⟨hEq, -, -⟩ := resolveGeometry_elim hg
  subst hEq
  dsimp only [geometryOf]
  omega

/-- Witness for `resolver_heights_widths` at the Bushnell defaults on a
720 × 1280 frame. -/
theorem resolver_heights_widths_witness :
    (wGeom.mirrorSource.bottom - wGeom.mirrorSource.top) +
        (wGeom.adjacentSource.bottom - wGeom.adjacentSource.top) =
      wGeom.target.bottom - wGeom.target.top ∧
    wGeom.target.bottom - wGeom.target.top = bushnellConfig.patch_height ∧
    wGeom.target.right - wGeom.target.left = bushnellConfig.patch_width ∧
    wGeom.mirrorSource.right - wGeom.mirrorSource.left = bushnellConfig.patch_width ∧
    wGeom.adjacentSource.right - wGeom.adjacentSource.left = bushnellConfig.patch_width :=
  resolver_heights_widths bushnellConfig 720 1280 wGeom (by decide)

/-- Claim C1 (counterexample): at the Bushnell defaults on a 720 × 1280
frame the resolver accepts, and the resolved mirror-source rectangle has
`bottom = 608` while `target.top - mirrorOffset = 610 - 56 = 554`: the
claimed equation `mirrorSource.bottom = target.top - mirrorOffset` is
false on the code. -/
theorem mirror_source_edges_cex :
    (resolveGeometry bushnellConfig 720 1280).map
        (fun g => decide (g.mirrorSource.bottom =
          g.target.top - bushnellConfig.mirror_offset)) = some false := by
  decide

/-- Claim C1 (amended): for every accepted geometry it is the mirror
source's TOP edge that sits `mirrorOffset` pixels above `target.top`
(`mirrorSource.top = target.top - mirrorOffset`), its bottom edge lying
`mirrorHeight` pixels below that, with the same left and right edges as
the target rectangle. -/
theorem mirror_source_edges (cfg : PatchConfig) (height width : Int)
    (g : PatchGeometry) (hg : resolveGeometry cfg height width = some g) :
    g.mirrorSource.top = g.target.top - cfg.mirror_offset ∧
    g.mirrorSource.bottom = g.mirrorSource.top + cfg.mirror_height ∧
    g.mirrorSource.left = g.target.left ∧
    g.mirrorSource.right = g.target.right := by
  obtain ⟨hEq, -, -⟩ := resolveGeometry_elim hg
  subst hEq
  dsimp only [geometryOf]
  omega

/-- Witness for `mirror_source_edges` at the Bushnell defaults on a
720 × 1280 frame. -/
theorem mirror_source_edges_witness :
    wGeom.mirrorSource.top = wGeom.target.top - bushnellConfig.mirror_offset ∧
    wGeom.mirrorSource.bottom = wGeom.mirrorSource.top + bushnellConfig.mirror_height ∧
    wGeom.mirrorSource.left = wGeom.target.left ∧
    wGeom.mirrorSource.right = wGeom.target.right :=
  mirror_source_edges bushnellConfig 720 1280 wGeom (by decide)

/-- Claim C5: for every accepted geometry, the target rectangle satisfies
`target.bottom = frameHeight - patchY`, `target.top = target.bottom -
patchHeight`, `target.left = patchX`, `target.right = patchX + patchWidth`,
and the adjacent-source rectangle satisfies `adjacentSource.bottom =
target.bottom`, `adjacentSource.top = target.bottom - (patchHeight -
mirrorHeight)`, `adjacentSource.left = target.right`,
`adjacentSource.right = target.right + patchWidth`. -/
theorem target_adjacent_edges (cfg : PatchConfig) (height width : Int)
    (g : PatchGeometry) (hg : resolveGeometry cfg height width = some g) :
    g.target.bottom = height - cfg.patch_y ∧
    g.target.top = g.target.bottom - cfg.patch_height ∧
    g.target.left = cfg.patch_x ∧
    g.target.right = cfg.patch_x + cfg.patch_width ∧
    g.adjacentSource.bottom = g.target.bottom ∧
    g.adjacentSource.top = g.target.bottom - (cfg.patch_height - cfg.mirror_height) ∧
    g.adjacentSource.left = g.target.right ∧
    g.adjacentSource.right = g.target.right + cfg.patch_width := by
  obtain ⟨hEq, -, -⟩ := resolveGeometry_elim hg
  subst hEq
  dsimp only [geometryOf]
  omega

/-- Witness for `target_adjacent_edges` at the Bushnell defaults on a
720 × 1280 frame. -/
theorem target_adjacent_edges_witness :
    wGeom.target.bottom = (720 : Int) - bushnellConfig.patch_y ∧
    wGeom.target.top = wGeom.target.bottom - bushnellConfig.patch_height ∧
    wGeom.target.left = bushnellConfig.patch_x ∧
    wGeom.target.right = bushnellConfig.patch_x + bushnellConfig.patch_width ∧
    wGeom.adjacentSource.bottom = wGeom.target.bottom ∧
    wGeom.adjacentSource.top =
      wGeom.target.bottom - (bushnellConfig.patch_height - bushnellConfig.mirror_height) ∧
    wGeom.adjacentSource.left = wGeom.target.right ∧
    wGeom.adjacentSource.right = wGeom.target.right + bushnellConfig.patch_width :=
  target_adjacent_edges bushnellConfig 720 1280 wGeom (by decide)

/-- A pixel: three 8-bit channels seen opaquely (the algorithm only copies
pixels, never computes with channel values). -/
abbrev Pixel := ℕ × ℕ × ℕ

/-- A frame in memory: an `height × width` pixel grid.  Pixels are read
through a total function; coordinates outside the grid are junk values the
theorems never depend on. -/
structure Mat where
  height : ℕ
  width : ℕ
  pix : Int → Int → Pixel

/-- Numpy basic-slice index resolution on an axis of length `n`:
a negative index wraps by `n`, then the result is clamped to `[0, n]`. -/
def resolveIndex (n : ℕ) (a : Int) : Int :=
  max 0 (min (if a < 0 then a + n else a) n)

/-- The slice `m[y0:y1, x0:x1]` (numpy basic slicing, step 1). -/
def Mat.slice (m : Mat) (y0 y1 x0 x1 : Int) : Mat :=
  { height := (resolveIndex m.height y1 - resolveIndex m.height y0).toNat
    width := (resolveIndex m.width x1 - resolveIndex m.width x0).toNat
    pix := fun i j => m.pix (resolveIndex m.height y0 + i) (resolveIndex m.width x0 + j) }

/-- The vertical flip `cv2.flip(m, 0)`: row order reversed, columns kept. -/
def Mat.flip0 (m : Mat) : Mat :=
  { m with pix := fun i j => m.pix ((m.height : Int) - 1 - i) j }

/-- The vertical concatenation `cv2.vconcat([a, b])`; raises (modelled as
`none`) when the widths disagree. -/
def Mat.vconcat (a b : Mat) : Option Mat :=
  if a.width = b.width then
    some { height := a.height + b.height
           width := a.width
           pix := fun i j =>
             if i < (a.height : Int) then a.pix i j else b.pix (i - a.height) j }
  else none

/-- The slice assignment `m[y0:y1, x0:x1] = p` (numpy, matching shapes:
`patch_frame` performs it only after verifying the shapes agree). -/
def Mat.setSlice (m : Mat) (y0 y1 x0 x1 : Int) (p : Mat) : Mat :=
  { m with pix := fun i j =>
      if resolveIndex m.height y0 ≤ i ∧ i < resolveIndex m.height y1 ∧
         resolveIndex m.width x0 ≤ j ∧ j < resolveIndex m.width x1 then
        p.pix (i - resolveIndex m.height y0) (j - resolveIndex m.width x0)
      else m.pix i j }

/-- `patch_frame` (lines 89-160).  The input is the on-disk frame
(`none` when `cv2.imread` fails); the output pairs the returned boolean
with the on-disk content after the call — the file is rewritten
(`cv2.imwrite`) only on the success path, every `return False` leaves it
as it was. -/
def patch_frame (cfg : PatchConfig) (frame : Option Mat) : Bool × Option Mat :=
  match frame with
  | none => (false, none)
  | some frame =>
    match resolveGeometry cfg frame.height frame.width with
    | none => (false, some frame)
    | some g =>
      if ((frame.slice g.mirrorSource.top g.mirrorSource.bottom
              g.mirrorSource.left g.mirrorSource.right).flip0.height : Int) ≠
          cfg.mirror_height then
        (false, some frame)
      else if ((frame.slice g.adjacentSource.top g.adjacentSource.bottom
              g.adjacentSource.left g.adjacentSource.right).height : Int) ≠
          cfg.patch_height - cfg.mirror_height then
        (false, some frame)
      else if ((frame.slice g.mirrorSource.top g.mirrorSource.bottom
              g.mirrorSource.left g.mirrorSource.right).flip0.width : Int) ≠
            cfg.patch_width ∨
          ((frame.slice g.adjacentSource.top g.adjacentSource.bottom
              g.adjacentSource.left g.adjacentSource.right).width : Int) ≠
            cfg.patch_width then
        (false, some frame)
      else
        match Mat.vconcat
            (frame.slice g.mirrorSource.top g.mirrorSource.bottom
              g.mirrorSource.left g.mirrorSource.right).flip0
            (frame.slice g.adjacentSource.top g.adjacentSource.bottom
              g.adjacentSource.left g.adjacentSource.right) with
        | none => (false, some frame)
        | some patch =>
          if (patch.height : Int) ≠ cfg.patch_height ∨
              (patch.width : Int) ≠ cfg.patch_width then
            (false, some frame)
          else
            (true, some (frame.setSlice g.target.top g.target.bottom
              g.target.left g.target.right patch))

/-- In-range numpy indices resolve to themselves. -/
lemma resolveIndex_eq_self {n : ℕ} {a : Int} (h0 : 0 ≤ a) (hn : a ≤ n) :
    resolveIndex n a = a := by
  unfold resolveIndex
  split_ifs with h <;> omega

/-- A successful `patch_frame` run is exactly: geometry accepted, the
mirrored and adjacent blocks concatenated, and the concatenation written
over the target rectangle. -/
lemma patch_frame_success_eq {cfg : PatchConfig} {m m2 : Mat} {g : PatchGeometry}
    (hg : resolveGeometry cfg m.height m.width = some g)
    (hp : patch_frame cfg (some m) = (true, some m2)) :
    ∃ patch,
      Mat.vconcat (m.slice g.mirrorSource.top g.mirrorSource.bottom
          g.mirrorSource.left g.mirrorSource.right).flip0
        (m.slice g.adjacentSource.top g.adjacentSource.bottom
          g.adjacentSource.left g.adjacentSource.right) = some patch ∧
      m2 = m.setSlice g.target.top g.target.bottom g.target.left g.target.right patch := by
  unfold patch_frame at hp
  dsimp only at hp
  rw [hg] at hp
  dsimp only at hp
  split_ifs at hp with h1 h2 h3
  · exact absurd hp (by simp)
  · exact absurd hp (by simp)
  · exact absurd hp (by simp)
  · rcases hv : Mat.vconcat (m.slice g.mirrorSource.top g.mirrorSource.bottom
        g.mirrorSource.left g.mirrorSource.right).flip0
        (m.slice g.adjacentSource.top g.adjacentSource.bottom
          g.adjacentSource.left g.adjacentSource.right) with _ | patch
    · rw [hv] at hp
      exact absurd hp (by simp)
    · rw [hv] at hp
      dsimp only at hp
      split_ifs at hp with h4
      · exact absurd hp (by simp)
      · simp only [Prod.mk.injEq, Option.some.injEq] at hp
        exact ⟨patch, rfl, hp.2.symm⟩

/-- Bounds and linear relations of an accepted geometry, in the form the
pointwise frame lemmas consume. -/
lemma resolveGeometry_facts {cfg : PatchConfig} {h w : Int} {g : PatchGeometry}
    (hg : resolveGeometry cfg h w = some g) :
    g.target.chainOK h w ∧ g.mirrorSource.chainOK h w ∧ g.adjacentSource.chainOK h w ∧
    g.mirrorSource.bottom = g.mirrorSource.top + cfg.mirror_height ∧
    g.adjacentSource.bottom = g.adjacentSource.top + (cfg.patch_height - cfg.mirror_height) ∧
    g.target.bottom = g.target.top + cfg.patch_height ∧
    g.target.right = g.target.left + cfg.patch_width ∧
    g.mirrorSource.right = g.mirrorSource.left + cfg.patch_width ∧
    g.adjacentSource.right = g.adjacentSource.left + cfg.patch_width := by
  obtain ⟨hEq, hOK, -⟩ := resolveGeometry_elim hg
  subst hEq
  simp only [geometryOK, Rect.chainOK] at hOK ⊢
  dsimp only [geometryOf] at hOK ⊢
  omega

/-- Height of an in-bounds slice. -/
lemma slice_height_eq {m : Mat} {y0 y1 : Int} (x0 x1 : Int)
    (hy0 : 0 ≤ y0) (hyy : y0 ≤ y1) (hy1 : y1 ≤ m.height) :
    ((m.slice y0 y1 x0 x1).height : Int) = y1 - y0 := by
  unfold Mat.slice
  dsimp only
  rw [resolveIndex_eq_self (by omega) hy1, resolveIndex_eq_self hy0 (by omega)]
  omega

/-- Width of an in-bounds slice. -/
lemma slice_width_eq {m : Mat} {x0 x1 : Int} (y0 y1 : Int)
    (hx0 : 0 ≤ x0) (hxx : x0 ≤ x1) (hx1 : x1 ≤ m.width) :
    ((m.slice y0 y1 x0 x1).width : Int) = x1 - x0 := by
  unfold Mat.slice
  dsimp only
  rw [resolveIndex_eq_self (by omega) hx1, resolveIndex_eq_self hx0 (by omega)]
  omega

/-- Reading a pixel of an in-bounds slice reads the parent at an offset. -/
lemma slice_pix {m : Mat} {y0 x0 : Int} (y1 x1 : Int)
    (hy0 : 0 ≤ y0) (hyh : y0 ≤ m.height) (hx0 : 0 ≤ x0) (hxw : x0 ≤ m.width)
    (i j : Int) :
    (m.slice y0 y1 x0 x1).pix i j = m.pix (y0 + i) (x0 + j) := by
  unfold Mat.slice
  dsimp only
  rw [resolveIndex_eq_self hy0 hyh, resolveIndex_eq_self hx0 hxw]

/-- Elimination form of a successful `cv2.vconcat`. -/
lemma vconcat_elim {a b patch : Mat} (hv : Mat.vconcat a b = some patch) :
    a.width = b.width ∧ patch.height = a.height + b.height ∧ patch.width = a.width ∧
    ∀ i j : Int,
      patch.pix i j = if i < (a.height : Int) then a.pix i j else b.pix (i - a.height) j := by
  unfold Mat.vconcat at hv
  split_ifs at hv with hw
  simp only [Option.some.injEq] at hv
  subst hv
  exact ⟨hw, rfl, rfl, fun i j => rfl⟩

/-- A slice assignment read inside the assigned region. -/
lemma setSlice_pix_in {m p : Mat} {y0 y1 x0 x1 i j : Int}
    (hy0 : 0 ≤ y0) (hyy : y0 ≤ y1) (hy1 : y1 ≤ m.height)
    (hx0 : 0 ≤ x0) (hxx : x0 ≤ x1) (hx1 : x1 ≤ m.width)
    (hiy : y0 ≤ i) (hiy2 : i < y1) (hjx : x0 ≤ j) (hjx2 : j < x1) :
    (m.setSlice y0 y1 x0 x1 p).pix i j = p.pix (i - y0) (j - x0) := by
  unfold Mat.setSlice
  dsimp only
  rw [resolveIndex_eq_self hy0 (by omega), resolveIndex_eq_self (by omega) hy1,
    resolveIndex_eq_self hx0 (by omega), resolveIndex_eq_self (by omega) hx1]
  rw [if_pos ⟨hiy, hiy2, hjx, hjx2⟩]

/-- A slice assignment read outside the assigned region. -/
lemma setSlice_pix_out {m p : Mat} {y0 y1 x0 x1 i j : Int}
    (hy0 : 0 ≤ y0) (hyy : y0 ≤ y1) (hy1 : y1 ≤ m.height)
    (hx0 : 0 ≤ x0) (hxx : x0 ≤ x1) (hx1 : x1 ≤ m.width)
    (hout : i < y0 ∨ y1 ≤ i ∨ j < x0 ∨ x1 ≤ j) :
    (m.setSlice y0 y1 x0 x1 p).pix i j = m.pix i j := by
  unfold Mat.setSlice
  dsimp only
  rw [resolveIndex_eq_self hy0 (by omega), resolveIndex_eq_self (by omega) hy1,
    resolveIndex_eq_self hx0 (by omega), resolveIndex_eq_self (by omega) hx1]
  rw [if_neg (by omega)]

/-- Claim C2: whenever `patch_frame` succeeds, the target rectangle's top
`mirrorHeight` rows equal the mirror-source block with its row order
reversed (columns unchanged), and its bottom `adjacentHeight` rows equal
the adjacent-source block's original content, pixel for pixel (pixels are
copied whole, so channel for channel), with no blending: every target
pixel comes verbatim from one of the two source blocks. -/
theorem patch_content (cfg : PatchConfig) (m m2 : Mat) (g : PatchGeometry)
    (hg : resolveGeometry cfg m.height m.width = some g)
    (hp : patch_frame cfg (some m) = (true, some m2)) :
    (∀ i j : Int, 0 ≤ i → i < cfg.mirror_height → 0 ≤ j → j < cfg.patch_width →
        m2.pix (g.target.top + i) (g.target.left + j) =
          m.pix (g.mirrorSource.bottom - 1 - i) (g.mirrorSource.left + j)) ∧
    (∀ i j : Int, 0 ≤ i → i < cfg.patch_height - cfg.mirror_height →
        0 ≤ j → j < cfg.patch_width →
        m2.pix (g.target.top + cfg.mirror_height + i) (g.target.left + j) =
          m.pix (g.adjacentSource.top + i) (g.adjacentSource.left + j)) := by
  obtain ⟨patch, hv, hm2⟩ := patch_frame_success_eq hg hp
  obtain ⟨hT, hM, hA, hMb, hAb, hTb, hTr, hMr, hAr⟩ := resolveGeometry_facts hg
  obtain ⟨hT1, hT2, hT3, hT4, hT5, hT6⟩ := hT
  obtain ⟨hM1, hM2, hM3, hM4, hM5, hM6⟩ := hM
  obtain ⟨hA1, hA2, hA3, hA4, hA5, hA6⟩ := hA
  obtain ⟨hw, hph, hpw, hpix⟩ := vconcat_elim hv
  have hflipH : (((m.slice g.mirrorSource.top g.mirrorSource.bottom
      g.mirrorSource.left g.mirrorSource.right).flip0).height : Int) =
      cfg.mirror_height := by
    dsimp only [Mat.flip0]
    rw [slice_height_eq g.mirrorSource.left g.mirrorSource.right hM1 (by omega) hM3]
    omega
  have hsliceH : (((m.slice g.mirrorSource.top g.mirrorSource.bottom
      g.mirrorSource.left g.mirrorSource.right)).height : Int) =
      g.mirrorSource.bottom - g.mirrorSource.top :=
    slice_height_eq g.mirrorSource.left g.mirrorSource.right hM1 (by omega) hM3
  subst hm2
  constructor
  · intro i j hi0 hi hj0 hj
    rw [setSlice_pix_in hT1 (by omega) hT3 hT4 (by omega) hT6
      (by omega) (by omega) (by omega) (by omega)]
    rw [show g.target.top + i - g.target.top = i from by ring,
      show g.target.left + j - g.target.left = j from by ring]
    rw [hpix i j, hflipH, if_pos hi]
    dsimp only [Mat.flip0]
    rw [hsliceH]
    rw [slice_pix g.mirrorSource.bottom g.mirrorSource.right hM1 (by omega) hM4 (by omega)]
    rw [show g.mirrorSource.top + (g.mirrorSource.bottom - g.mirrorSource.top - 1 - i) =
      g.mirrorSource.bottom - 1 - i from by ring]
  · intro i j hi0 hi hj0 hj
    rw [setSlice_pix_in hT1 (by omega) hT3 hT4 (by omega) hT6
      (by omega) (by omega) (by omega) (by omega)]
    rw [show g.target.top + cfg.mirror_height + i - g.target.top =
        cfg.mirror_height + i from by ring,
      show g.target.left + j - g.target.left = j from by ring]
    rw [hpix (cfg.mirror_height + i) j, hflipH, if_neg (by omega)]
    rw [show cfg.mirror_height + i - cfg.mirror_height = i from by ring]
    rw [slice_pix g.adjacentSource.bottom g.adjacentSource.right hA1 (by omega) hA4 (by omega)]

/-- Claim C9: whenever `patch_frame` succeeds, the frame's dimensions are
preserved and every pixel outside the target rectangle is unchanged (the
two source regions are only read). -/
theorem patch_outside_unchanged (cfg : PatchConfig) (m m2 : Mat) (g : PatchGeometry)
    (hg : resolveGeometry cfg m.height m.width = some g)
    (hp : patch_frame cfg (some m) = (true, some m2)) :
    m2.height = m.height ∧ m2.width = m.width ∧
    ∀ i j : Int,
      (i < g.target.top ∨ g.target.bottom ≤ i ∨ j < g.target.left ∨ g.target.right ≤ j) →
      m2.pix i j = m.pix i j := by
  obtain ⟨patch, hv, hm2⟩ := patch_frame_success_eq hg hp
  obtain ⟨hT, -, -, -, -, -, -, -, -⟩ := resolveGeometry_facts hg
  obtain ⟨hT1, hT2, hT3, hT4, hT5, hT6⟩ := hT
  subst hm2
  refine ⟨rfl, rfl, ?_⟩
  intro i j hout
  exact setSlice_pix_out hT1 (by omega) hT3 hT4 (by omega) hT6 hout

/-- A synthetic 720 × 1280 frame whose pixels encode their coordinates,
so contents can be distinguished position by position. -/
def wFrame : Mat :=
  { height := 720, width := 1280, pix := fun i j => (i.toNat, j.toNat, 0) }

/-- The on-disk content after patching `wFrame` with the Bushnell defaults. -/
def wFrameP : Mat := ((patch_frame bushnellConfig (some wFrame)).2).getD wFrame

/-- Witness for `patch_content`: on the 720 × 1280 synthetic frame, a pixel
of the mirrored part and a pixel of the adjacent part of the target are
the claimed source pixels. -/
theorem patch_content_witness :
    wFrameP.pix (wGeom.target.top + 0) (wGeom.target.left + 5) =
      wFrame.pix (wGeom.mirrorSource.bottom - 1 - 0) (wGeom.mirrorSource.left + 5) ∧
    wFrameP.pix (wGeom.target.top + bushnellConfig.mirror_height + 0) (wGeom.target.left + 5) =
      wFrame.pix (wGeom.adjacentSource.top + 0) (wGeom.adjacentSource.left + 5) :=
  ⟨(patch_content bushnellConfig wFrame wFrameP wGeom (by decide) (by rfl)).1
      0 5 (by decide) (by decide) (by decide) (by decide),
   (patch_content bushnellConfig wFrame wFrameP wGeom (by decide) (by rfl)).2
      0 5 (by decide) (by decide) (by decide) (by decide)⟩

/-- Witness for `patch_outside_unchanged` on the synthetic frame, at a
pixel above the target rectangle. -/
theorem patch_outside_unchanged_witness :
    wFrameP.height = wFrame.height ∧ wFrameP.width = wFrame.width ∧
    wFrameP.pix 0 600 = wFrame.pix 0 600 := by
  obtain ⟨h1, h2, h3⟩ :=
    patch_outside_unchanged bushnellConfig wFrame wFrameP wGeom (by decide) (by rfl)
  exact ⟨h1, h2, h3 0 600 (by decide)⟩

/-- Claim C6: whenever `patch_frame` rejects a frame — unreadable input,
frame smaller than required, out-of-bounds rectangle, or a shape mismatch
after mirroring or concatenation — the frame (and the file it models) is
left exactly as it was: every failure path returns before the slice
assignment and the write-back. -/
theorem patch_no_mutation_on_failure (cfg : PatchConfig) (f : Option Mat)
    (hfail : (patch_frame cfg f).1 = false) : (patch_frame cfg f).2 = f := by
  cases f with
  | none => rfl
  | some m =>
    revert hfail
    unfold patch_frame
    dsimp only
    cases resolveGeometry cfg m.height m.width with
    | none => intro hfail; rfl
    | some g =>
      dsimp only
      split_ifs with h1 h2 h3
      · intro hfail; rfl
      · intro hfail; rfl
      · intro hfail; rfl
      · cases Mat.vconcat (m.slice g.mirrorSource.top g.mirrorSource.bottom
            g.mirrorSource.left g.mirrorSource.right).flip0
            (m.slice g.adjacentSource.top g.adjacentSource.bottom
              g.adjacentSource.left g.adjacentSource.right) with
        | none => intro hfail; rfl
        | some patch =>
          dsimp only
          split_ifs with h4
          · intro hfail; rfl
          · intro hfail; exact absurd hfail (by simp)

/-- A readable 50 × 50 frame, smaller than the Bushnell patch area. -/
def smallFrame : Mat := { height := 50, width := 50, pix := fun _ _ => (0, 0, 0) }

/-- Witness for `patch_no_mutation_on_failure`: patching the too-small
frame fails and leaves its content untouched. -/
theorem patch_no_mutation_on_failure_witness :
    (patch_frame bushnellConfig (some smallFrame)).2 = some smallFrame :=
  patch_no_mutation_on_failure bushnellConfig (some smallFrame) (by rfl)

/-- `patch_frames` (lines 169-202): the Frame Batch Runner, abstracted
over the already-listed frame files (each file is its decoded content, or
`none` when unreadable).  `none` as a result models the early return of
lines 172-174: no tally is reported for an empty batch; otherwise the
reported tally pairs the number of `True` results with the total. -/
def patch_frames (cfg : PatchConfig) (frames : List (Option Mat)) : Option (ℕ × ℕ) :=
  if frames.length = 0 then none
  else
    some (((frames.map (fun f => (patch_frame cfg f).1)).count true, frames.length))

/-- Counting `True` results over a mapped list is counting the frames the
worker succeeded on. -/
lemma count_true_map {α : Type} (l : List α) (f : α → Bool) :
    (l.map f).count true = l.countP f := by
  induction l with
  | nil => rfl
  | cons a l ih =>
    simp only [List.map_cons, List.count_cons, List.countP_cons, ih]
    cases hfa : f a <;> simp

/-- Claim C7 (amended): for every non-empty list of frames the Frame Batch
Runner processes every frame (no individual failure aborts the batch — the
tally is over the whole list) and reports a success count equal to exactly
the number of frames on which `patch_frame` returned `True`, out of the
total number of frames.  (For an empty list the runner returns after a
warning and reports no tally; see `batch_tally_cex`.) -/
theorem batch_tally (cfg : PatchConfig) (frames : List (Option Mat))
    (hne : frames ≠ []) :
    patch_frames cfg frames =
      some (frames.countP (fun f => (patch_frame cfg f).1), frames.length) := by
  unfold patch_frames
  rw [if_neg (by simpa using hne), count_true_map]

/-- The 10-frame batch scenario: 8 readable, patchable frames and 2
unreadable ones. -/
def batchScenario : List (Option Mat) :=
  List.replicate 8 (some wFrame) ++ [none, none]

/-- Witness for `batch_tally`: the 10-frame scenario with 2 unreadable
frames reports 8 successes out of 10. -/
theorem batch_tally_witness : patch_frames bushnellConfig batchScenario = some (8, 10) := by
  rw [batch_tally bushnellConfig batchScenario (by simp [batchScenario])]
  decide

/-- Claim C7 (counterexample to the universal claim): for the empty list
of frames the Frame Batch Runner reports no success tally at all (the
source returns after printing a warning, line 172-174), so it does not
report a `0/0` count. -/
theorem batch_tally_cex : patch_frames bushnellConfig [] = none := by decide

/-- Python `str.split(sep)` for a one-character separator, on strings
modelled as character lists (Lean `String` functions do not reduce in the
kernel; the list model is the same data). -/
def splitOnChar (sep : Char) : List Char → List (List Char)
  | [] => [[]]
  | c :: cs =>
    match splitOnChar sep cs with
    | [] => if c = sep then [[], [c]] else [[c]]
    | h :: t => if c = sep then [] :: h :: t else (c :: h) :: t

/-- Accumulator loop for the decimal digits of a numeric token. -/
def digitsToNat (acc : ℕ) : List Char → Option ℕ
  | [] => some acc
  | c :: cs => if c.isDigit then digitsToNat (10 * acc + (c.toNat - 48)) cs else none

/-- Modelled from the source's `float()` calls (lines 37-39), restricted
to the unsigned decimal-integer tokens `ffprobe`'s `r_frame_rate` field
yields (such as `30000`, `1001`, `25`); any other string is `none`
(`float()` raising `ValueError`).  Values are exact rationals: on integer
tokens of this size the Python conversion is exact. -/
def pyFloat (s : List Char) : Option ℚ :=
  match s with
  | [] => none
  | cs => (digitsToNat 0 cs).map (fun n => (n : ℚ))

/-- Line 38: `num / denom if denom else num` — the division guarded by
the truthiness of the denominator, so a zero denominator yields the
numerator itself. -/
def resolveRational (num denom : ℚ) : ℚ := if denom ≠ 0 then num / denom else num

/-- `get_fps` (lines 28-39) after the `ffprobe` subprocess call: resolve
the reported `r_frame_rate` string, either `numerator/denominator`
(resolved by division, zero denominator guarded) or a plain number.
`none` models the exceptions Python would raise on malformed tokens. -/
def get_fps (fps_str : List Char) : Option ℚ :=
  if fps_str.contains ('/') then
    match splitOnChar ('/') fps_str with
    | [a, b] =>
      match pyFloat a, pyFloat b with
      | some num, some denom => some (resolveRational num denom)
      | _, _ => none
    | _ => none
  else pyFloat fps_str

/-- Claim C8: the frame-rate probe resolves a rational string by division
with the zero denominator guarded (`resolveRational` with denominator `0`
returns the numerator, never dividing): `30000/1001` resolves to a value
within `1/1000` of `29.97`, and `25` resolves to `25`. -/
theorem fps_probe :
    get_fps ("30000/1001").data = some (30000 / 1001 : ℚ) ∧
    |(30000 / 1001 : ℚ) - 2997 / 100| < 1 / 1000 ∧
    get_fps ("25").data = some 25 ∧
    ∀ num : ℚ, resolveRational num 0 = num :=
  ⟨rfl, by rw [abs_sub_lt_iff]; norm_num, rfl, fun num => by simp [resolveRational]⟩

/-- Claim C10: a rational frame-rate string with a zero denominator makes
the probe return the numerator itself — `30/0` resolves to `30`, with no
division-by-zero failure. -/
theorem fps_zero_denominator : get_fps ("30/0").data = some 30 := rfl
